import Mathlib

/-!
Verification of the career-matching core of the Pathify AI backend.

The definitions below are a shallow embedding of `score_careers`,
`CAREER_LIBRARY` and `generate_roadmap` from `src/main.py`, together with
the Pydantic models of `src/schemas.py` that they consume and produce.

Modelling decisions (each noted again at the definition it concerns):
* Python `str.lower()` is modelled character-wise with `Char.toLower`
  (all catalog data and the comparisons in scope are ASCII).
* A Python `set` built from a list is modelled as the list of distinct
  elements in first-occurrence (insertion) order.  Membership in the model
  agrees exactly with Python set membership; only the *iteration* order of
  CPython sets is unspecified (hash-dependent), and the spec directs
  deterministic ports to use insertion order.
* The float expression `sum(xs) / max(len(xs), 1)` followed by
  `int((avg - 3) * 4)` is modelled by exact rational arithmetic truncated
  toward zero (`Int.tdiv`), which is what the CPython `int()` conversion
  computes; on this input range the float rounding never crosses an
  integer boundary, so the rational model agrees with the float code.
* `list.sort(key=..., reverse=True)` is the CPython stable sort in
  descending key order; it is modelled by the stable Mathlib
  `List.insertionSort` with the total preorder "greater-or-equal match
  percent" (any stable sort under the same preorder produces the same
  list).
* The MongoDB template collection read by `generate_roadmap` is modelled
  as a lookup function `String → Option CareerTemplate`; documents are
  created only from the `CareerTemplate` Pydantic model, so every stored
  document has all template fields present.
-/

namespace Pathify

/-- Python `s.lower()`, modelled character-wise (ASCII data). -/
def lowerString (s : String) : String := ⟨s.data.map Char.toLower⟩

/-- Distinct elements of a list in first-occurrence order.  Models the
contents of a Python `set` built by inserting the elements of the list in
order, with set iteration order modelled as insertion order. -/
def dedupFirst : List String → List String
  | [] => []
  | s :: rest => s :: (dedupFirst rest).filter (fun t => t != s)

/-- Python `set(x.lower() for x in l)` (main.py lines 176-177), as an
insertion-ordered duplicate-free list. -/
def lowerSet (l : List String) : List String := dedupFirst (l.map lowerString)

/-- AssessmentSubmission (schemas.py lines 35-42). -/
structure AssessmentSubmission where
  academic_performance : String
  interests : List String
  skills : List String
  preferences : List String
  personality_answers : List Int
  uploaded_docs : Option (List String)
  language : String
deriving DecidableEq

/-- CareerMatch (schemas.py lines 44-51).  The two `Dict[str, Any]`
fields hold values of mixed type, so they are flattened: the salary dict
always has exactly the keys entry/mid/senior with numeric values, and the
demand dict always has the keys current_index/trend_6m/regions. -/
structure CareerMatch where
  career : String
  match_percent : Int
  why_match : List String
  strengths : List String
  skill_gap : List String
  salary_entry : Rat
  salary_mid : Rat
  salary_senior : Rat
  demand_current_index : Int
  demand_trend_6m : String
  demand_regions : List String
deriving DecidableEq, Inhabited

/-- One value of the `CAREER_LIBRARY` dict (main.py lines 150-171). -/
structure CareerProfile where
  skills : List String
  why : List String
deriving DecidableEq

def softwareEngineerProfile : CareerProfile :=
  { skills := ["Data Structures", "Algorithms", "Python", "Git", "System Design"]
    why := ["Strong analytical thinking", "Enjoys building things", "High demand across industries"] }

def dataScientistProfile : CareerProfile :=
  { skills := ["Statistics", "Python", "Pandas", "Machine Learning", "Visualization"]
    why := ["Enjoys working with data", "Curiosity for patterns", "Growing AI ecosystem"] }

def uiUxDesignerProfile : CareerProfile :=
  { skills := ["Figma", "User Research", "Prototyping", "Visual Design", "Accessibility"]
    why := ["Creative problem solving", "Empathy for users", "Portfolio-driven growth"] }

def cybersecurityAnalystProfile : CareerProfile :=
  { skills := ["Network Basics", "Linux", "Threat Modeling", "SIEM", "Security+"]
    why := ["Detail-oriented", "Protective mindset", "Rising threats -> demand"] }

def productManagerProfile : CareerProfile :=
  { skills := ["Communication", "Roadmapping", "User Stories", "Analytics", "Leadership"]
    why := ["Cross-functional", "User + business focus", "High leverage role"] }

/-- CAREER_LIBRARY (main.py lines 150-171).  A Python dict preserves
insertion order, so it is modelled as an association list in source
order. -/
def CAREER_LIBRARY : List (String × CareerProfile) :=
  [("Software Engineer", softwareEngineerProfile),
   ("Data Scientist", dataScientistProfile),
   ("UI/UX Designer", uiUxDesignerProfile),
   ("Cybersecurity Analyst", cybersecurityAnalystProfile),
   ("Product Manager", productManagerProfile)]

/-- Personality tilt (main.py lines 178 and 205):
`personality = sum(answers) / max(len(answers), 1)` followed by
`int((personality - 3) * 4)`.  The exact value of `(sum/n - 3) * 4` is
the rational `(4*sum - 12*n) / n`, and `int()` truncates toward zero,
which is `Int.tdiv` for the positive denominator `n`. -/
def personality_tilt (answers : List Int) : Int :=
  let n : Int := ((max answers.length 1 : Nat) : Int)
  Int.tdiv (4 * answers.sum - 12 * n) n

/-- Interest-based boosts (main.py lines 184-198), for one career of the
loop over `CAREER_LIBRARY`.  `interests` is the lowercased interest
set. -/
def interest_boost (interests : List String) (career : String) : Int :=
  (if (interests.contains "code" || interests.contains "programming"
        || interests.contains "software") && career == "Software Engineer" then 25 else 0)
  + (if interests.contains "design" && career == "UI/UX Designer" then 22 else 0)
  + (if (interests.contains "data" || interests.contains "math")
        && career == "Data Scientist" then 24 else 0)
  + (if (interests.contains "security" || interests.contains "network")
        && career == "Cybersecurity Analyst" then 20 else 0)
  + (if (interests.contains "lead" || interests.contains "business")
        && career == "Product Manager" then 18 else 0)

/-- Skills overlap (main.py line 201):
`len(set(s.lower() for s in meta["skills"]).intersection(skills))`, the
number of distinct lowercased profile skills present in the lowercased
skill set of the submission. -/
def skill_overlap (profileSkills : List String) (skills : List String) : Int :=
  (((dedupFirst (profileSkills.map lowerString))).filter (fun s => skills.contains s)).length

/-- One iteration of the scoring loop (main.py lines 181-222) for the
catalog entry `e`.  `interests` and `skills` are the lowercased sets and
`tilt` the personality tilt, all computed once before the loop. -/
def score_one (interests skills : List String) (tilt : Int)
    (e : String × CareerProfile) : CareerMatch :=
  let base : Int := 50 + interest_boost interests e.1
      + min (skill_overlap e.2.skills skills * 6) 18 + tilt
  let clamped : Int := max 1 (min 97 base)
  { career := e.1
    match_percent := clamped
    why_match := e.2.why
    strengths := skills.take 5
    skill_gap := e.2.skills.filter (fun s => !(skills.contains (lowerString s)))
    salary_entry := 4
    salary_mid := 12
    salary_senior := 30
    demand_current_index := clamped
    demand_trend_6m := "+12%"
    demand_regions := ["India", "US", "Remote"] }

/-- The `results` list of `score_careers` before sorting (main.py lines
180-222): one `CareerMatch` per catalog entry, in catalog order. -/
def raw_matches (p : AssessmentSubmission) : List CareerMatch :=
  CAREER_LIBRARY.map
    (score_one (lowerSet p.interests) (lowerSet p.skills)
      (personality_tilt p.personality_answers))

/-- The sort preorder of main.py line 224: descending match percent. -/
def byDescPercent (a b : CareerMatch) : Prop := b.match_percent ≤ a.match_percent

instance : DecidableRel byDescPercent :=
  fun a b => inferInstanceAs (Decidable (b.match_percent ≤ a.match_percent))

instance : IsTotal CareerMatch byDescPercent :=
  ⟨fun a b => le_total b.match_percent a.match_percent⟩

instance : IsTrans CareerMatch byDescPercent :=
  ⟨fun _ _ _ h h' => le_trans h' h⟩

/-- score_careers (main.py lines 174-225).
`results.sort(key=lambda m: m.match_percent, reverse=True)` is the
CPython stable sort in descending key order, modelled by the stable
`List.insertionSort` under `byDescPercent`; then `results[:5]`. -/
def score_careers (p : AssessmentSubmission) : List CareerMatch :=
  (List.insertionSort byDescPercent (raw_matches p)).take 5

/-- CareerTemplate (schemas.py lines 60-66).  `prompts` is an optional
string-to-string dict, modelled as an association list. -/
structure CareerTemplate where
  career : String
  summary : String
  required_skills : List String
  roadmap : List (String × List String)
  default_actions : List String
  prompts : Option (List (String × String))
deriving DecidableEq

/-- Roadmap (schemas.py lines 53-58).  The stage dict preserves
insertion order, modelled as an association list. -/
structure Roadmap where
  career : String
  summary : String
  required_skills : List String
  roadmap : List (String × List String)
  actions : List String
deriving DecidableEq

/-- The synthesized stage dict of the fallback branch (main.py lines
257-263), in insertion order. -/
def default_roadmap_stages : List (String × List String) :=
  [("Classes 8–10", ["Math foundations", "Intro to CS", "Logic puzzles", "Build small projects"]),
   ("Classes 11–12", ["Choose PCM", "Python + DSA basics", "Hackathons", "Git + GitHub"]),
   ("Graduation", ["Data Structures & Algorithms", "Internship", "System Design basics", "Open Source"]),
   ("Certifications", ["Coursera Specialization", "AWS Cloud Practitioner", "Security basics"]),
   ("Portfolio", ["3-5 polished projects", "README docs", "Case studies", "Personal website"])]

/-- The fixed action list of the fallback branch (main.py line 265). -/
def default_actions_list : List String :=
  ["Complete DSA 150", "Build 2 real-world projects", "Internship hunt", "Leetcode 100"]

/-- generate_roadmap (main.py lines 246-267).  The request body is
modelled by its only consulted key, `data.get("career", "Software
Engineer")`; the MongoDB `careertemplate` collection is the lookup
function `store`.  Stored documents always carry every field of
`CareerTemplate` (they are written only via the admin upsert of that
model), so the `template.get(..., default)` calls always find their
key. -/
def generate_roadmap (store : String → Option CareerTemplate)
    (dataCareer : Option String) : Roadmap :=
  let career := dataCareer.getD "Software Engineer"
  match store career with
  | some t =>
      { career := career
        summary := t.summary
        required_skills := t.required_skills
        roadmap := t.roadmap
        actions := t.default_actions }
  | none =>
      { career := career
        summary := "A clear, stage-wise pathway to become a " ++ career ++ "."
        required_skills := ((CAREER_LIBRARY.lookup career).getD softwareEngineerProfile).skills
        roadmap := default_roadmap_stages
        actions := default_actions_list }

/-- Truncation of a rational toward zero, the semantics of the Python
`int()` conversion applied to an exact quotient.  (`Rat.floor` is the
computable floor; it agrees with `Int.floor` on `ℚ`.) -/
def ratTrunc (q : ℚ) : Int := if 0 ≤ q then q.floor else -((-q).floor)

/-- The personality-tilt formula exactly as the specification words it
for claim C3: `floor_to_int((personality_avg − 3) × 4)`, i.e. the
mathematical floor of the exact rational value. -/
def floor_tilt_spec (answers : List Int) : Int :=
  let n : ℚ := ((max answers.length 1 : Nat) : ℚ)
  ((((answers.sum : ℚ) / n) - 3) * 4).floor

/-- The concrete submission of the worked scenario in the spec. -/
def subC4 : AssessmentSubmission :=
  { academic_performance := "good"
    interests := ["code", "data"]
    skills := ["python", "git"]
    preferences := []
    personality_answers := [4, 4, 5]
    uploaded_docs := none
    language := "en" }

/-- A submission whose personality average 7/3 separates floor from
truncation. -/
def sub223 : AssessmentSubmission :=
  { academic_performance := ""
    interests := []
    skills := []
    preferences := []
    personality_answers := [2, 2, 3]
    uploaded_docs := none
    language := "en" }

/-- A submission with a single capitalised skill. -/
def subPython : AssessmentSubmission :=
  { academic_performance := ""
    interests := []
    skills := ["Python"]
    preferences := []
    personality_answers := [3]
    uploaded_docs := none
    language := "en" }

/-- A submission on which all five careers tie. -/
def subEmpty : AssessmentSubmission :=
  { academic_performance := ""
    interests := []
    skills := []
    preferences := []
    personality_answers := []
    uploaded_docs := none
    language := "en" }

/-- Shares interests, skills and personality answers with `subB` but
differs in every other field. -/
def subA : AssessmentSubmission :=
  { academic_performance := "excellent"
    interests := ["code"]
    skills := ["python"]
    preferences := ["remote"]
    personality_answers := [5, 5]
    uploaded_docs := some ["cv.pdf"]
    language := "en" }

/-- Shares interests, skills and personality answers with `subA` but
differs in every other field. -/
def subB : AssessmentSubmission :=
  { academic_performance := "poor"
    interests := ["code"]
    skills := ["python"]
    preferences := []
    personality_answers := [5, 5]
    uploaded_docs := none
    language := "hi" }

/-- A stored template for the Software Engineer career. -/
def sampleTemplate : CareerTemplate :=
  { career := "Software Engineer"
    summary := "Curated pathway"
    required_skills := ["Rust"]
    roadmap := [("Stage 1", ["step one"])]
    default_actions := ["do the thing"]
    prompts := none }

/-- A store holding exactly one template, for Software Engineer. -/
def sampleStore : String → Option CareerTemplate :=
  fun c => if c == "Software Engineer" then some sampleTemplate else none

/-- A store with no templates at all. -/
def emptyStore : String → Option CareerTemplate := fun _ => none

/-- The top match of the worked scenario, used as a concrete witness. -/
def firstMatchC4 : CareerMatch := (score_careers subC4).headI

/- ------------------------- helper lemmas ------------------------- -/

theorem intFloor_eq_ratFloor (q : ℚ) : ⌊q⌋ = q.floor := by
  rw [Rat.floor_def]
  exact (Rat.floor_def' q).symm

theorem mem_dedupFirst {a : String} {l : List String} :
    a ∈ dedupFirst l ↔ a ∈ l := by
  induction l with
  | nil => simp [dedupFirst]
  | cons s rest ih =>
    simp only [dedupFirst, List.mem_cons, List.mem_filter, ih, bne_iff_ne]
    by_cases h : a = s
    · simp [h]
    · simp [h]

theorem mem_lowerSet {a : String} {l : List String} :
    a ∈ lowerSet l ↔ a ∈ l.map lowerString := mem_dedupFirst

theorem score_one_career (I S : List String) (t : Int) (e : String × CareerProfile) :
    (score_one I S t e).career = e.1 := rfl

theorem score_one_match_percent (I S : List String) (t : Int) (e : String × CareerProfile) :
    (score_one I S t e).match_percent =
      max 1 (min 97 (50 + interest_boost I e.1
        + min (skill_overlap e.2.skills S * 6) 18 + t)) := rfl

theorem score_one_strengths (I S : List String) (t : Int) (e : String × CareerProfile) :
    (score_one I S t e).strengths = S.take 5 := rfl

theorem score_one_skill_gap (I S : List String) (t : Int) (e : String × CareerProfile) :
    (score_one I S t e).skill_gap =
      e.2.skills.filter (fun s => !(S.contains (lowerString s))) := rfl

theorem length_raw_matches (p : AssessmentSubmission) : (raw_matches p).length = 5 := rfl

theorem score_careers_eq_sort (p : AssessmentSubmission) :
    score_careers p = List.insertionSort byDescPercent (raw_matches p) := by
  unfold score_careers
  exact List.take_of_length_le (le_of_eq (by rw [List.length_insertionSort, length_raw_matches]))

theorem mem_raw_of_mem_score {p : AssessmentSubmission} {m : CareerMatch}
    (hm : m ∈ score_careers p) : m ∈ raw_matches p := by
  rw [score_careers_eq_sort] at hm
  exact (List.mem_insertionSort byDescPercent).mp hm

theorem exists_entry_of_mem_raw {p : AssessmentSubmission} {m : CareerMatch}
    (hm : m ∈ raw_matches p) :
    ∃ e, e ∈ CAREER_LIBRARY ∧
      m = score_one (lowerSet p.interests) (lowerSet p.skills)
        (personality_tilt p.personality_answers) e := by
  obtain ⟨e, he, hme⟩ := List.mem_map.mp hm
  exact ⟨e, he, hme.symm⟩

/- ------------------------- claim theorems ------------------------- -/

/-- C1: for every submission, `score_careers` returns exactly 5 matches
(one per Catalog profile) and every returned `match_percent` lies in the
inclusive range [1, 97]. -/
theorem C1_five_matches_percent_in_range (p : AssessmentSubmission) :
    (score_careers p).length = 5 ∧
    ∀ m ∈ score_careers p, 1 ≤ m.match_percent ∧ m.match_percent ≤ 97 := by
  constructor
  · rw [score_careers_eq_sort, List.length_insertionSort, length_raw_matches]
  · intro m hm
    obtain ⟨e, he, rfl⟩ := exists_entry_of_mem_raw (mem_raw_of_mem_score hm)
    rw [score_one_match_percent]
    exact ⟨le_max_left _ _, max_le (by norm_num) (min_le_left _ _)⟩

theorem C1_witness :
    (score_careers subC4).length = 5 ∧
    1 ≤ firstMatchC4.match_percent ∧ firstMatchC4.match_percent ≤ 97 :=
  ⟨(C1_five_matches_percent_in_range subC4).1,
   (C1_five_matches_percent_in_range subC4).2 firstMatchC4 (by decide)⟩

/-- C2: the returned list is sorted in descending order of
`match_percent`, it has no duplicate entries, the unsorted match list
carries the five Catalog careers in Catalog iteration order, and any two
matches that tie on `match_percent` keep their relative Catalog order in
the output (stable sort): a pair in Catalog order in the pre-sort list
with equal percents stays a sublist of the returned list. -/
theorem C2_sorted_descending_stable (p : AssessmentSubmission) :
    List.Sorted byDescPercent (score_careers p) ∧
    (score_careers p).Nodup ∧
    (raw_matches p).map CareerMatch.career = CAREER_LIBRARY.map Prod.fst ∧
    ∀ a b : CareerMatch, [a, b].Sublist (raw_matches p) →
      a.match_percent = b.match_percent → [a, b].Sublist (score_careers p) := by
  refine ⟨?_, ?_, rfl, ?_⟩
  · rw [score_careers_eq_sort]
    exact List.sorted_insertionSort byDescPercent (raw_matches p)
  · have hmapn : ((raw_matches p).map CareerMatch.career).Nodup :=
      (by decide : (CAREER_LIBRARY.map Prod.fst).Nodup)
    have hraw : (raw_matches p).Nodup := hmapn.of_map
    rw [score_careers_eq_sort]
    exact ((List.perm_insertionSort byDescPercent (raw_matches p)).nodup_iff).mpr hraw
  · intro a b hab heq
    rw [score_careers_eq_sort]
    exact List.pair_sublist_insertionSort (le_of_eq heq.symm) hab

theorem C2_witness :
    [(raw_matches subEmpty).headI,
     (raw_matches subEmpty).tail.headI].Sublist (score_careers subEmpty) :=
  (C2_sorted_descending_stable subEmpty).2.2.2 _ _ (by decide) (by decide)

/-- C4: on the submission with interests code/data, skills python/git and
personality answers [4,4,5], Software Engineer scores 92
(50 + 25 + 12 + 5) and Data Scientist scores 85 (50 + 24 + 6 + 5). -/
theorem C4_concrete_scenario :
    ((score_careers subC4).map (fun m => (m.career, m.match_percent))) =
      [("Software Engineer", 92), ("Data Scientist", 85), ("UI/UX Designer", 55),
       ("Cybersecurity Analyst", 55), ("Product Manager", 55)] ∧
    interest_boost (lowerSet subC4.interests) "Software Engineer" = 25 ∧
    min (skill_overlap softwareEngineerProfile.skills (lowerSet subC4.skills) * 6) 18 = 12 ∧
    personality_tilt subC4.personality_answers = 5 ∧
    interest_boost (lowerSet subC4.interests) "Data Scientist" = 24 ∧
    min (skill_overlap dataScientistProfile.skills (lowerSet subC4.skills) * 6) 18 = 6 ∧
    (50 + 25 + 12 + 5 : Int) = 92 ∧ (50 + 24 + 6 + 5 : Int) = 85 := by
  decide

/-- C9: `score_careers` is a deterministic function of the submission —
identical inputs (with the Catalog a fixed constant) give identical
outputs. -/
theorem C9_deterministic (p q : AssessmentSubmission) (h : p = q) :
    score_careers p = score_careers q := by rw [h]

theorem C9_witness : score_careers subC4 = score_careers subC4 :=
  C9_deterministic subC4 subC4 rfl

/-- C10: the scoring output depends only on the interests, skills and
personality answers of the submission; the remaining fields
(academic performance, preferences, uploaded docs, language) are never
read. -/
theorem C10_depends_only_on_scored_fields (p q : AssessmentSubmission)
    (hi : p.interests = q.interests) (hs : p.skills = q.skills)
    (ha : p.personality_answers = q.personality_answers) :
    score_careers p = score_careers q := by
  unfold score_careers raw_matches
  rw [hi, hs, ha]

theorem C10_witness : score_careers subA = score_careers subB :=
  C10_depends_only_on_scored_fields subA subB rfl rfl rfl

-- Truncated integer division agrees with rational truncation toward
-- zero for a positive natural denominator.
theorem tdiv_eq_ratTrunc (a : ℤ) (n : ℕ) (hn : 0 < n) :
    Int.tdiv a n = ratTrunc ((a : ℚ) / (n : ℚ)) := by
  have hnz : (0 : ℤ) ≤ n := Int.ofNat_nonneg n
  rcases le_or_lt 0 a with ha | ha
  · rw [Int.tdiv_eq_ediv ha hnz]
    unfold ratTrunc
    rw [if_pos (by positivity), ← intFloor_eq_ratFloor]
    exact (Rat.floor_intCast_div_natCast a n).symm
  · have hq : ((a : ℚ) / (n : ℚ)) < 0 :=
      div_neg_of_neg_of_pos (by exact_mod_cast ha) (by positivity)
    rw [show Int.tdiv a (n : ℤ) = -(Int.tdiv (-a) (n : ℤ)) by rw [Int.neg_tdiv, neg_neg]]
    rw [Int.tdiv_eq_ediv (by omega) hnz]
    unfold ratTrunc
    rw [if_neg (not_le.mpr hq), ← intFloor_eq_ratFloor]
    rw [show -((a : ℚ) / (n : ℚ)) = (((-a : ℤ) : ℚ) / (n : ℚ)) by push_cast; ring]
    rw [Rat.floor_intCast_div_natCast (-a) n]

-- The floor formula of the spec evaluated at answers [2,2,3]: the exact
-- tilt value is (7/3 - 3) * 4 = -8/3 and its floor is -3.
theorem floor_tilt_spec_223 : floor_tilt_spec [2, 2, 3] = -3 := by
  have harg : (((((2 : Int) + (2 + (3 + 0)) : Int) : ℚ))
      / ((max ([2, 2, 3] : List Int).length 1 : Nat) : ℚ) - 3) * 4 = -8 / 3 := by
    norm_num
  simp only [floor_tilt_spec, List.sum_cons, List.sum_nil, harg, ← intFloor_eq_ratFloor]
  rw [Int.floor_eq_iff]
  norm_num

/-- C3 counterexample: the floor formula of the claim disagrees with the code.
With personality answers [2,2,3] the exact tilt value is −8/3, whose
floor is −3, but the `int()` truncation of the code yields −2; with no
interests and no skills the pre-clamp score of every career is 50 + tilt, and
the code returns 48 = 50 + (−2) everywhere, while the floor formula would
give 47 = 50 + (−3). -/
theorem C3_counterexample :
    personality_tilt [2, 2, 3] = -2 ∧
    floor_tilt_spec [2, 2, 3] = -3 ∧
    ((score_careers sub223).map CareerMatch.match_percent) = [48, 48, 48, 48, 48] ∧
    (50 + floor_tilt_spec [2, 2, 3] : Int) = 47 := by
  refine ⟨by decide, floor_tilt_spec_223, by decide, ?_⟩
  rw [floor_tilt_spec_223]
  decide

/-- C3 (amended): the personality tilt added to the base
score of every career equals the exact value of (personality_avg − 3) × 4 truncated
toward zero (Python `int()` semantics), where personality_avg is the
mean of the personality answers with the divisor floored at 1; for an
empty answer list the tilt is −12; and the same tilt enters the score of
all 5 profiles before clamping. -/
theorem C3_tilt_truncation :
    (∀ answers : List Int,
      personality_tilt answers =
        ratTrunc ((((answers.sum : ℚ) / ((max answers.length 1 : Nat) : ℚ)) - 3) * 4)) ∧
    personality_tilt [] = -12 ∧
    ∀ p : AssessmentSubmission,
      raw_matches p = CAREER_LIBRARY.map
        (score_one (lowerSet p.interests) (lowerSet p.skills)
          (personality_tilt p.personality_answers)) := by
  refine ⟨?_, by decide, fun p => rfl⟩
  intro answers
  have hn : 0 < max answers.length 1 := lt_max_of_lt_right Nat.zero_lt_one
  have key := tdiv_eq_ratTrunc (4 * answers.sum - 12 * (max answers.length 1 : Nat))
    (max answers.length 1) hn
  unfold personality_tilt
  rw [key]
  have hq : ((max answers.length 1 : Nat) : ℚ) ≠ 0 := by positivity
  congr 1
  push_cast
  field_simp
  ring

/-- C5: for every returned match, `skill_gap` is exactly those skills of
the corresponding Catalog profile whose lowercase form is missing from
the lowercased skill set of the submission, in profile order with
original casing kept; consequently it shares no skill with the skills of
the submission under
case-insensitive comparison. -/
theorem C5_skill_gap_exact_and_disjoint (p : AssessmentSubmission) (m : CareerMatch)
    (hm : m ∈ score_careers p) :
    ∃ prof : CareerProfile, (m.career, prof) ∈ CAREER_LIBRARY ∧
      m.skill_gap = prof.skills.filter
        (fun s => !((lowerSet p.skills).contains (lowerString s))) ∧
      ∀ s ∈ m.skill_gap, ∀ t ∈ p.skills, lowerString s ≠ lowerString t := by
  obtain ⟨e, he, rfl⟩ := exists_entry_of_mem_raw (mem_raw_of_mem_score hm)
  refine ⟨e.2, by simpa using he, rfl, ?_⟩
  intro s hs t ht heq
  rw [score_one_skill_gap] at hs
  obtain ⟨-, hcon⟩ := List.mem_filter.mp hs
  rw [Bool.not_eq_true'] at hcon
  have hmem : lowerString s ∈ lowerSet p.skills := by
    rw [heq]
    exact mem_lowerSet.mpr (List.mem_map_of_mem lowerString ht)
  have : (lowerSet p.skills).contains (lowerString s) = true := by
    simpa [List.contains, List.elem_iff] using hmem
  rw [this] at hcon
  exact Bool.noConfusion hcon

theorem C5_witness :
    ∃ prof : CareerProfile, (firstMatchC4.career, prof) ∈ CAREER_LIBRARY ∧
      firstMatchC4.skill_gap = prof.skills.filter
        (fun s => !((lowerSet subC4.skills).contains (lowerString s))) ∧
      ∀ s ∈ firstMatchC4.skill_gap, ∀ t ∈ subC4.skills,
        lowerString s ≠ lowerString t :=
  C5_skill_gap_exact_and_disjoint subC4 firstMatchC4 (by decide)

/-- C6 counterexample: the claim says `strengths` equals the first 5
entries of the skills of the submission as provided, but the code lowercases
them first: for the single skill "Python" every returned match carries
strengths ["python"], not ["Python"]. -/
theorem C6_counterexample :
    ((score_careers subPython).map CareerMatch.strengths) =
      [["python"], ["python"], ["python"], ["python"], ["python"]] ∧
    subPython.skills.take 5 = ["Python"] ∧
    (["python"] : List String) ≠ ["Python"] := by
  decide

/-- C6 (amended): in every returned match, `strengths` equals the first
5 entries of the lowercased, deduplicated skill set of the submission
(Python set iteration order modelled as first-occurrence insertion
order). -/
theorem C6_strengths_from_lowered_set (p : AssessmentSubmission) (m : CareerMatch)
    (hm : m ∈ score_careers p) :
    m.strengths = (lowerSet p.skills).take 5 := by
  obtain ⟨e, he, rfl⟩ := exists_entry_of_mem_raw (mem_raw_of_mem_score hm)
  rfl

theorem C6_witness : firstMatchC4.strengths = (lowerSet subC4.skills).take 5 :=
  C6_strengths_from_lowered_set subC4 firstMatchC4 (by decide)

/-- C7: when the template store holds a template for the requested
career, `generate_roadmap` returns exactly the summary of that template,
its
required skills, stages and actions — the whole record comes from the
template, never a merge with the synthesized default. -/
theorem C7_template_precedence (store : String → Option CareerTemplate)
    (dataCareer : Option String) (tpl : CareerTemplate)
    (h : store (dataCareer.getD "Software Engineer") = some tpl) :
    generate_roadmap store dataCareer =
      { career := dataCareer.getD "Software Engineer"
        summary := tpl.summary
        required_skills := tpl.required_skills
        roadmap := tpl.roadmap
        actions := tpl.default_actions } := by
  simp only [generate_roadmap, h]

theorem C7_witness :
    generate_roadmap sampleStore (some "Software Engineer") =
      { career := "Software Engineer"
        summary := sampleTemplate.summary
        required_skills := sampleTemplate.required_skills
        roadmap := sampleTemplate.roadmap
        actions := sampleTemplate.default_actions } :=
  C7_template_precedence sampleStore (some "Software Engineer") sampleTemplate (by decide)

/-- C8: with no stored template and a career name outside the Catalog,
`generate_roadmap` falls back to the skills of the Software Engineer
profile,
the synthesized 5-stage roadmap with its stage labels in insertion
order, and the templated summary string for the requested career. -/
theorem C8_fallback_unknown_career (store : String → Option CareerTemplate) (c : String)
    (h1 : store c = none) (h2 : CAREER_LIBRARY.lookup c = none) :
    (generate_roadmap store (some c)).required_skills = softwareEngineerProfile.skills ∧
    (generate_roadmap store (some c)).roadmap = default_roadmap_stages ∧
    default_roadmap_stages.map Prod.fst =
      ["Classes 8–10", "Classes 11–12", "Graduation", "Certifications", "Portfolio"] ∧
    (generate_roadmap store (some c)).summary =
      "A clear, stage-wise pathway to become a " ++ c ++ "." := by
  simp only [generate_roadmap, Option.getD_some, h1, h2]
  refine ⟨?_, ?_, ?_, ?_⟩ <;> first | rfl | trivial

theorem C8_witness :
    (generate_roadmap emptyStore (some "Nonexistent Career")).required_skills =
      softwareEngineerProfile.skills ∧
    (generate_roadmap emptyStore (some "Nonexistent Career")).roadmap =
      default_roadmap_stages ∧
    default_roadmap_stages.map Prod.fst =
      ["Classes 8–10", "Classes 11–12", "Graduation", "Certifications", "Portfolio"] ∧
    (generate_roadmap emptyStore (some "Nonexistent Career")).summary =
      "A clear, stage-wise pathway to become a " ++ "Nonexistent Career" ++ "." :=
  C8_fallback_unknown_career emptyStore "Nonexistent Career" rfl (by decide)

end Pathify
